import Mathlib

/-!
Verification of the webhook delivery and verification core of the
bg.inbound.new repository.

The development shallowly embeds the TypeScript source:

* the signature codec: `sendWebhook` signing (src/unnamed/part_009, lines
  80-94) and `verifyWebhookSignature` (src/unnamed/part_008, lines 31-57,
  and the older variant in src/unnamed/part_007, lines 28-39);
* the delivery engine `sendWebhook` retry loop (src/unnamed/part_009,
  lines 63-127) with `backoffDelay`;
* the completion notifier `checkAndNotifyAgentCompletion`
  (src/unnamed/part_009, lines 156-205);
* the inbound webhook handler `POST` (src/unnamed/part_008, lines 102-302);
* the job-registration writes performed by `createCursorAgent`
  (src/app/api/inbound/receive/[configId]/route.ts, lines 76-106 and
  143-157) together with the mapping lookup of part_008 (lines 184-198).

Byte strings are `List Nat` with every byte reduced modulo 256 where the
code produces one.  JavaScript strings handled character-wise (hex digests,
signature headers) are `List Char`; strings used only for equality tests
(header values, status values) are Lean `String`s.  The Node library
functions the source calls (`crypto.createHmac("sha256", ...)`,
`Buffer.from(s, "hex")`, `crypto.timingSafeEqual`) are embedded by
executable Lean implementations of their documented semantics, including
the truncating hex decoder of Node (decoding stops at the first character
that is not a hexadecimal digit, and a trailing lone digit is dropped).
-/

namespace BgInbound

/-! ## Hexadecimal codec

`hexEncode` embeds Node `Buffer.prototype.toString("hex")` (lowercase
digits, two per byte); `hexDecode` embeds `Buffer.from(s, "hex")`, which
stops at the first non-hexadecimal character and drops a trailing lone
digit rather than failing. -/

/-- Lowercase hexadecimal digit for a value below 16. -/
def hexDigit (n : Nat) : Char :=
  if n < 10 then Char.ofNat (48 + n) else Char.ofNat (87 + n)

/-- Node `buf.toString("hex")`: two lowercase digits per byte. -/
def hexEncode : List Nat → List Char
  | [] => []
  | b :: bs => hexDigit (b / 16 % 16) :: hexDigit (b % 16) :: hexEncode bs

/-- Value of one hexadecimal character; Node accepts both cases. -/
def hexVal (c : Char) : Option Nat :=
  if 48 ≤ c.toNat ∧ c.toNat ≤ 57 then some (c.toNat - 48)
  else if 97 ≤ c.toNat ∧ c.toNat ≤ 102 then some (c.toNat - 87)
  else if 65 ≤ c.toNat ∧ c.toNat ≤ 70 then some (c.toNat - 55)
  else none

/-- Node `Buffer.from(s, "hex")`: consume pairs of hexadecimal digits,
stopping at the first character that is not one (a trailing lone digit is
likewise dropped).  This decoder is total: malformed input truncates the
result, it never fails. -/
def hexDecode : List Char → List Nat
  | c1 :: c2 :: rest =>
    match hexVal c1, hexVal c2 with
    | some h, some l => (16 * h + l) :: hexDecode rest
    | _, _ => []
  | _ => []

/-- The claim side notion of a string that hex-decodes without loss:
even length and every character a hexadecimal digit. -/
def hexWellFormed (cs : List Char) : Bool :=
  cs.length % 2 == 0 && cs.all (fun c => (hexVal c).isSome)

/-! ## SHA-256 and HMAC-SHA256

Executable embedding of the Node library calls
`crypto.createHmac("sha256", secret).update(body).digest()` used by the
source; 32-bit words are `Nat` reduced modulo `2 ^ 32`. -/

/-- Reduce to a 32-bit word. -/
def w32 (n : Nat) : Nat := n % 4294967296

/-- Right rotation of a 32-bit word. -/
def rotr (n x : Nat) : Nat := w32 ((x >>> n) ||| (x <<< (32 - n)))

/-- SHA-256 big sigma 0. -/
def bsig0 (x : Nat) : Nat := rotr 2 x ^^^ rotr 13 x ^^^ rotr 22 x

/-- SHA-256 big sigma 1. -/
def bsig1 (x : Nat) : Nat := rotr 6 x ^^^ rotr 11 x ^^^ rotr 25 x

/-- SHA-256 small sigma 0. -/
def ssig0 (x : Nat) : Nat := rotr 7 x ^^^ rotr 18 x ^^^ (x >>> 3)

/-- SHA-256 small sigma 1. -/
def ssig1 (x : Nat) : Nat := rotr 17 x ^^^ rotr 19 x ^^^ (x >>> 10)

/-- SHA-256 choice function (the complement is taken within 32 bits). -/
def chf (x y z : Nat) : Nat := (x &&& y) ^^^ ((x ^^^ 4294967295) &&& z)

/-- SHA-256 majority function. -/
def majf (x y z : Nat) : Nat := (x &&& y) ^^^ (x &&& z) ^^^ (y &&& z)

/-- The 64 SHA-256 round constants, decimal values of the FIPS 180-4
table. -/
def K256 : List Nat :=
  [1116352408, 1899447441, 3049323471, 3921009573,
   961987163, 1508970993, 2453635748, 2870763221,
   3624381080, 310598401, 607225278, 1426881987,
   1925078388, 2162078206, 2614888103, 3248222580,
   3835390401, 4022224774, 264347078, 604807628,
   770255983, 1249150122, 1555081692, 1996064986,
   2554220882, 2821834349, 2952996808, 3210313671,
   3336571891, 3584528711, 113926993, 338241895,
   666307205, 773529912, 1294757372, 1396182291,
   1695183700, 1986661051, 2177026350, 2456956037,
   2730485921, 2820302411, 3259730800, 3345764771,
   3516065817, 3600352804, 4094571909, 275423344,
   430227734, 506948616, 659060556, 883997877,
   958139571, 1322822218, 1537002063, 1747873779,
   1955562222, 2024104815, 2227730452, 2361852424,
   2428436474, 2756734187, 3204031479, 3329325298]

/-- Working state: eight 32-bit words. -/
structure Hash8 where
  a : Nat
  b : Nat
  c : Nat
  d : Nat
  e : Nat
  f : Nat
  g : Nat
  h : Nat
deriving Repr, DecidableEq

/-- The SHA-256 initial hash value, decimal. -/
def sha256Init : Hash8 :=
  ⟨1779033703, 3144134277, 1013904242, 2773480762,
   1359893119, 2600822924, 528734635, 1541459225⟩

/-- One step of the message-schedule extension; the accumulator holds the
schedule so far, newest word first. -/
def scheduleStep (acc : List Nat) : List Nat :=
  w32 (ssig1 (acc.getD 1 0) + acc.getD 6 0 + ssig0 (acc.getD 14 0) + acc.getD 15 0) :: acc

/-- Extend a 16-word block to the 64-word message schedule. -/
def buildSchedule (block16 : List Nat) : List Nat :=
  ((List.range 48).foldl (fun acc _ => scheduleStep acc) block16.reverse).reverse

/-- One SHA-256 round, consuming a round constant paired with a schedule
word. -/
def roundStep (st : Hash8) (kw : Nat × Nat) : Hash8 :=
  let t1 := w32 (st.h + bsig1 st.e + chf st.e st.f st.g + kw.1 + kw.2)
  let t2 := w32 (bsig0 st.a + majf st.a st.b st.c)
  ⟨w32 (t1 + t2), st.a, st.b, st.c, w32 (st.d + t1), st.e, st.f, st.g⟩

/-- Compress one 16-word block into the running hash. -/
def compressBlock (hs : Hash8) (block16 : List Nat) : Hash8 :=
  let fin := (K256.zip (buildSchedule block16)).foldl roundStep hs
  ⟨w32 (hs.a + fin.a), w32 (hs.b + fin.b), w32 (hs.c + fin.c), w32 (hs.d + fin.d),
   w32 (hs.e + fin.e), w32 (hs.f + fin.f), w32 (hs.g + fin.g), w32 (hs.h + fin.h)⟩

/-- Big-endian assembly of bytes into 32-bit words, four at a time. -/
def bytesToWords : List Nat → List Nat
  | b0 :: b1 :: b2 :: b3 :: rest =>
    (b0 * 16777216 + b1 * 65536 + b2 * 256 + b3) :: bytesToWords rest
  | _ => []

/-- The eight-byte big-endian encoding of the message bit length. -/
def lengthBytes (n : Nat) : List Nat :=
  [n / 2 ^ 56 % 256, n / 2 ^ 48 % 256, n / 2 ^ 40 % 256, n / 2 ^ 32 % 256,
   n / 2 ^ 24 % 256, n / 2 ^ 16 % 256, n / 2 ^ 8 % 256, n % 256]

/-- SHA-256 padding: a 0x80 byte, zeros to 56 mod 64, then the bit length. -/
def padMessage (msg : List Nat) : List Nat :=
  msg ++ 128 :: List.replicate ((64 - (msg.length + 9) % 64) % 64) 0
      ++ lengthBytes (8 * msg.length)

/-- Split a byte list into chunks of 64, driven by a fuel argument so the
recursion is structural. -/
def chunks64 : Nat → List Nat → List (List Nat)
  | 0, _ => []
  | _, [] => []
  | fuel + 1, bs => bs.take 64 :: chunks64 fuel (bs.drop 64)

/-- The four big-endian bytes of a 32-bit word. -/
def wordBytes (w : Nat) : List Nat :=
  [w / 16777216 % 256, w / 65536 % 256, w / 256 % 256, w % 256]

/-- SHA-256 of a byte list, as the 32 bytes of the final hash value. -/
def sha256 (msg : List Nat) : List Nat :=
  let padded := padMessage msg
  let hs := (chunks64 padded.length padded).foldl
    (fun acc chunk => compressBlock acc (bytesToWords chunk)) sha256Init
  wordBytes hs.a ++ wordBytes hs.b ++ wordBytes hs.c ++ wordBytes hs.d ++
  wordBytes hs.e ++ wordBytes hs.f ++ wordBytes hs.g ++ wordBytes hs.h

/-- HMAC-SHA256 over byte lists, embedding Node
`crypto.createHmac("sha256", key).update(msg).digest()`: a key longer than
the 64-byte block is hashed first, the key is zero-padded to the block
size, and the usual inner (0x36) and outer (0x5c) pads are applied. -/
def hmacSHA256 (key msg : List Nat) : List Nat :=
  let k0 := if 64 < key.length then sha256 key else key
  let kp := k0 ++ List.replicate (64 - k0.length) 0
  sha256 (kp.map (fun b => b ^^^ 92) ++ sha256 (kp.map (fun b => b ^^^ 54) ++ msg))

/-! ## Signature codec -/

/-- The characters of the `"sha256="` signature scheme tag. -/
def sigSchemeChars : List Char := ['s', 'h', 'a', '2', '5', '6', '=']

/-- The signature the delivery engine attaches (src/unnamed/part_009,
lines 80-86): `"sha256=" + hex(HMAC-SHA256(secret, body))`, computed over
the exact serialized body it transmits. -/
def signWebhook (secret body : List Nat) : List Char :=
  sigSchemeChars ++ hexEncode (hmacSHA256 secret body)

/-- Node `crypto.timingSafeEqual`: throws (modelled by `Except.error`)
when the buffer lengths differ, otherwise compares contents (the constant
time of the comparison has no observable counterpart here). -/
def timingSafeEqual (a b : List Nat) : Except Unit Bool :=
  if a.length = b.length then Except.ok (decide (a = b)) else Except.error ()

/-- `verifyWebhookSignature` of src/unnamed/part_008, lines 31-57: reject
unless the signature starts with `"sha256="` (an empty string is rejected
by the same test), strip the tag, hex-decode the remainder and the
expected digest with the truncating Node decoder, and compare
timing-safely; the surrounding try/catch turns the length-mismatch throw
into `false`. -/
def verifyWebhookSignature (secret rawBody : List Nat) (signature : List Char) : Bool :=
  if signature.take 7 = sigSchemeChars then
    match timingSafeEqual (hexDecode (signature.drop 7))
        (hexDecode (hexEncode (hmacSHA256 secret rawBody))) with
    | Except.ok r => r
    | Except.error _ => false
  else false

/-- The older `verifyWebhookSignature` of src/unnamed/part_007, lines
28-39: reject unless the signature starts with `"sha256="`, then compare
the whole string against `"sha256=" + hex(HMAC-SHA256(secret, body))`. -/
def verifyWebhookSignatureLegacy (secret rawBody : List Nat) (signature : List Char) : Bool :=
  if signature.take 7 = sigSchemeChars then
    decide (signature = sigSchemeChars ++ hexEncode (hmacSHA256 secret rawBody))
  else false

/-! ## Delivery engine

`sendWebhook` of src/unnamed/part_009, lines 63-127.  The environment is
abstracted as a function from the 0-based attempt index to what `fetch`
did on that attempt: returned a response with some status, or threw (a
transport error, or the 15-second `AbortSignal.timeout` firing).  The run
records the boolean result, the number of attempts made, and the backoff
delays slept between attempts. -/

/-- What `fetch` did on one attempt: produced a response, or threw
(transport error or timeout). -/
inductive AttemptResult
  | response (status : Nat)
  | exn
deriving DecidableEq

/-- Observable outcome of one `sendWebhook` call: the returned boolean,
how many attempts were made, and the delays slept between attempts. -/
structure DeliveryRun where
  success : Bool
  attempts : Nat
  delays : List Nat
deriving DecidableEq

/-- `backoffDelay` of src/unnamed/part_009, line 69:
`Math.min(1000 * Math.pow(2, attempt), 10000)`. -/
def backoffDelay (attempt : Nat) : Nat := min (1000 * 2 ^ attempt) 10000

/-- An attempt outcome the loop retries: a response that is neither 2xx
(`response.ok`) nor 4xx, or a thrown error. -/
def retryable : AttemptResult → Bool
  | .response s => decide (¬(200 ≤ s ∧ s ≤ 299) ∧ ¬(400 ≤ s ∧ s ≤ 499))
  | .exn => true

/-- The body of the `for` loop of `sendWebhook`, from attempt index
`attempt` with `fuel = maxRetries - attempt` iterations left (the fuel
makes the recursion structural; `fuel = 0` is the loop exit at line 126).
A 2xx response returns `true`; a 4xx response returns `false` with no
further attempts; anything else falls into the catch block, which returns
`false` on the last attempt and otherwise sleeps `backoffDelay attempt`
and continues. -/
def sendWebhookGo (outcome : Nat → AttemptResult) (maxRetries : Nat) :
    Nat → Nat → DeliveryRun
  | _, 0 => ⟨false, 0, []⟩
  | attempt, fuel + 1 =>
    let failPath : DeliveryRun :=
      if attempt = maxRetries - 1 then ⟨false, 1, []⟩
      else
        let r := sendWebhookGo outcome maxRetries (attempt + 1) fuel
        ⟨r.success, r.attempts + 1, backoffDelay attempt :: r.delays⟩
    match outcome attempt with
    | .response s =>
      if 200 ≤ s ∧ s ≤ 299 then ⟨true, 1, []⟩
      else if 400 ≤ s ∧ s ≤ 499 then ⟨false, 1, []⟩
      else failPath
    | .exn => failPath

/-- `sendWebhook(webhookUrl, payload, secret?, maxRetries = 3)`: run the
retry loop from attempt 0. -/
def sendWebhook (outcome : Nat → AttemptResult) (maxRetries : Nat) : DeliveryRun :=
  sendWebhookGo outcome maxRetries 0 maxRetries

/-! ## Completion notifier

`checkAndNotifyAgentCompletion` of src/unnamed/part_009, lines 156-205:
for each tracked agent, find its current record in the poll result and
send a webhook exactly when the tracked status was `RUNNING` or
`CREATING`, the current status is `FINISHED` or `ERROR`, and the tracker
carries a (truthy) webhook URL. -/

/-- JavaScript truthiness of an optional string (`null`/`undefined` and
the empty string are falsy). -/
def truthyStr : Option String → Bool
  | none => false
  | some s => decide (s ≠ "")

/-- JavaScript truthiness of an optional character list. -/
def truthyChars : Option (List Char) → Bool
  | none => false
  | some s => decide (s ≠ [])

/-- JavaScript truthiness of an optional byte list (a database text
column carried as bytes). -/
def truthyBytes : Option (List Nat) → Bool
  | none => false
  | some s => decide (s ≠ [])

/-- The fields of a `CursorAgent` poll entry the notifier consults. -/
structure CursorAgentInfo where
  id : String
  name : String
  status : String
  summary : Option String
  createdAt : String
  prUrl : Option String
deriving DecidableEq

/-- The `metadata` bag of an `AgentStatusTracker`. -/
structure TrackerMetadata where
  emailAgentId : Option String
  originalEmailId : Option String
  senderEmail : Option String
  emailSubject : Option String
deriving DecidableEq

/-- `AgentStatusTracker` of src/unnamed/part_009, lines 49-60.  The
webhook secret is carried as the bytes of the stored string. -/
structure AgentStatusTracker where
  agentId : String
  lastStatus : String
  webhookUrl : Option String
  webhookSecret : Option (List Nat)
  metadata : TrackerMetadata
deriving DecidableEq

/-- One webhook dispatch performed by the notifier: destination, event
name, agent id and the secret handed to the delivery engine. -/
structure AgentWebhookSend where
  url : String
  event : String
  agentId : String
  secret : Option (List Nat)
deriving DecidableEq

/-- The loop body of `checkAndNotifyAgentCompletion` for one tracker:
`continue` when the agent is absent from the poll result; send a webhook
exactly when the status moved from `RUNNING`/`CREATING` to
`FINISHED`/`ERROR` and a webhook URL is present. -/
def notifyDecision (currentAgents : List CursorAgentInfo)
    (tracker : AgentStatusTracker) : Option AgentWebhookSend :=
  match currentAgents.find? (fun a => a.id == tracker.agentId) with
  | none => none
  | some currentAgent =>
    if (tracker.lastStatus = "RUNNING" ∨ tracker.lastStatus = "CREATING")
        ∧ (currentAgent.status = "FINISHED" ∨ currentAgent.status = "ERROR") then
      if truthyStr tracker.webhookUrl then
        some ⟨tracker.webhookUrl.getD "",
              if currentAgent.status = "FINISHED" then "agent.completed" else "agent.failed",
              currentAgent.id, tracker.webhookSecret⟩
      else none
    else none

/-- `checkAndNotifyAgentCompletion`: the webhooks sent over the whole
tracked list. -/
def checkAndNotifyAgentCompletion (currentAgents : List CursorAgentInfo)
    (trackedAgents : List AgentStatusTracker) : List AgentWebhookSend :=
  trackedAgents.filterMap (notifyDecision currentAgents)

/-! ## Inbound webhook handler

The `POST` handler of src/unnamed/part_008, lines 102-302.  The JSON
parser (`JSON.parse`) and the database select are abstracted as function
parameters; the handler result records the HTTP status, which return site
produced it, and the ordered list of observable actions taken (body read,
body parse, mapping lookup, signature verification, reply send). -/

/-- The payload fields the handler control flow consults.  Fields are
optional because `JSON.parse` output is unchecked; the handler tests them
for JavaScript truthiness. -/
structure WebhookPayloadFields where
  event : Option String
  id : Option String
  status : Option String
  timestamp : Option String
deriving DecidableEq

/-- The columns of `cursor_agent_mapping` the handler selects
(src/unnamed/part_008, lines 184-193).  The webhook secret column is
nullable; its value is carried as the bytes of the stored string. -/
structure CursorAgentMappingRow where
  originalEmailId : String
  emailAddress : String
  webhookSecret : Option (List Nat)
  emailAgentId : String
deriving DecidableEq

/-- An inbound request as the handler observes it: the path segment and
the four headers it reads, plus the raw body bytes. -/
structure WebhookRequest where
  pathEmailId : String
  userAgent : Option String
  eventType : Option String
  webhookId : Option String
  signature : Option (List Char)
  rawBody : List Nat
deriving DecidableEq

/-- The return sites of the handler. -/
inductive ResponseKind
  | invalidUserAgent
  | unsupportedEventType
  | invalidJson
  | invalidPayloadStructure
  | invalidEventType
  | invalidStatus
  | ignoredNonFinal
  | agentNotFound
  | invalidSignature
  | emailServiceNotConfigured
  | replySendFailed
  | success
deriving DecidableEq

/-- Observable actions of the handler, in program order. -/
inductive HandlerAction
  | readBody
  | parseBody
  | lookupMapping
  | verifySig
  | sendReply
deriving DecidableEq

/-- A handler outcome: HTTP status, return site, actions performed. -/
structure HandlerResult where
  status : Nat
  kind : ResponseKind
  actions : List HandlerAction
deriving DecidableEq

/-- The tail of the handler after the signature block (src/unnamed/
part_008, lines 241-293): fail with 500 when the Inbound client is not
configured, otherwise send the reply and report 200 on success or 500 on
a reply error. -/
def handlerReplyStage (inboundConfigured replyOk : Bool)
    (acts : List HandlerAction) : HandlerResult :=
  if inboundConfigured then
    if replyOk then ⟨200, ResponseKind.success, acts ++ [HandlerAction.sendReply]⟩
    else ⟨500, ResponseKind.replySendFailed, acts ++ [HandlerAction.sendReply]⟩
  else ⟨500, ResponseKind.emailServiceNotConfigured, acts⟩

/-- The `POST` handler of src/unnamed/part_008.  `parseJson` stands for
`JSON.parse` on the raw body (`none` models a parse throw), and
`lookupByAgentId` for the `cursor_agent_mapping` select keyed by
`cursorAgentId`.  Control flow, in source order: User-Agent gate (401),
`X-Webhook-Event` gate (400), body read, JSON parse (400), required-field
truthiness check (400), event value check (400), status value check
(400), the duplicated status check whose `ignored` branch this faithfully
reproduces (200), mapping lookup (404), then the signature block: a
(truthy) provided signature is verified only when the mapping also holds
a (truthy) secret, failing with 401, while a missing signature or a
missing stored secret is allowed through for backward compatibility. -/
def handleCursorWebhook (parseJson : List Nat → Option WebhookPayloadFields)
    (lookupByAgentId : String → Option CursorAgentMappingRow)
    (inboundConfigured replyOk : Bool) (req : WebhookRequest) : HandlerResult :=
  if truthyStr req.userAgent = false ∨ req.userAgent ≠ some "Cursor-Agent-Webhook/1.0" then
    ⟨401, ResponseKind.invalidUserAgent, []⟩
  else if truthyStr req.eventType = false ∨ req.eventType ≠ some "statusChange" then
    ⟨400, ResponseKind.unsupportedEventType, []⟩
  else
    match parseJson req.rawBody with
    | none => ⟨400, ResponseKind.invalidJson, [HandlerAction.readBody, HandlerAction.parseBody]⟩
    | some payload =>
      let acts0 := [HandlerAction.readBody, HandlerAction.parseBody]
      if truthyStr payload.event = false ∨ truthyStr payload.id = false
          ∨ truthyStr payload.status = false ∨ truthyStr payload.timestamp = false then
        ⟨400, ResponseKind.invalidPayloadStructure, acts0⟩
      else if payload.event ≠ some "statusChange" then
        ⟨400, ResponseKind.invalidEventType, acts0⟩
      else if ¬(payload.status = some "FINISHED" ∨ payload.status = some "ERROR") then
        ⟨400, ResponseKind.invalidStatus, acts0⟩
      else if ¬(payload.status = some "FINISHED" ∨ payload.status = some "ERROR") then
        ⟨200, ResponseKind.ignoredNonFinal, acts0⟩
      else
        let acts1 := acts0 ++ [HandlerAction.lookupMapping]
        match lookupByAgentId (payload.id.getD "") with
        | none => ⟨404, ResponseKind.agentNotFound, acts1⟩
        | some mapping =>
          if truthyChars req.signature then
            if truthyBytes mapping.webhookSecret then
              let acts2 := acts1 ++ [HandlerAction.verifySig]
              if verifyWebhookSignature (mapping.webhookSecret.getD [])
                  req.rawBody (req.signature.getD []) = false then
                ⟨401, ResponseKind.invalidSignature, acts2⟩
              else handlerReplyStage inboundConfigured replyOk acts2
            else handlerReplyStage inboundConfigured replyOk acts1
          else handlerReplyStage inboundConfigured replyOk acts1

/-- The tail of the handler from the mapping lookup on, as a function of
the lookup result: 404 on a missing row, otherwise the signature block of
src/unnamed/part_008, lines 212-239, followed by the reply stage.  Used to
state what the handler does once the header, parse and payload gates have
passed. -/
def handlerMappingStage (inboundConfigured replyOk : Bool) (req : WebhookRequest) :
    Option CursorAgentMappingRow → HandlerResult
  | none => ⟨404, ResponseKind.agentNotFound,
      [HandlerAction.readBody, HandlerAction.parseBody, HandlerAction.lookupMapping]⟩
  | some mapping =>
    if truthyChars req.signature then
      if truthyBytes mapping.webhookSecret then
        if verifyWebhookSignature (mapping.webhookSecret.getD []) req.rawBody
            (req.signature.getD []) = false then
          ⟨401, ResponseKind.invalidSignature,
            [HandlerAction.readBody, HandlerAction.parseBody,
             HandlerAction.lookupMapping, HandlerAction.verifySig]⟩
        else handlerReplyStage inboundConfigured replyOk
          [HandlerAction.readBody, HandlerAction.parseBody,
           HandlerAction.lookupMapping, HandlerAction.verifySig]
      else handlerReplyStage inboundConfigured replyOk
        [HandlerAction.readBody, HandlerAction.parseBody, HandlerAction.lookupMapping]
    else handlerReplyStage inboundConfigured replyOk
      [HandlerAction.readBody, HandlerAction.parseBody, HandlerAction.lookupMapping]

/-! ## Job registration and lookup

The persistence performed at job launch by `createCursorAgent`
(src/app/api/inbound/receive/[configId]/route.ts): generate a fresh
64-hex-character secret (`crypto.randomBytes(32).toString("hex")`, line
40), store secret and callback URL on the `email_agent` row (lines
93-105), and insert a `cursor_agent_mapping` row carrying the agent id,
email-agent id, original email id and email address — and, notably, not
the secret (lines 143-157); the `webhook_secret` column of the mapping
stays at its NULL default.  `lookupMappingRow` is the select of
src/unnamed/part_008, lines 184-193. -/

/-- `generateWebhookSecret` of route.ts, lines 39-41:
`crypto.randomBytes(32).toString("hex")`, modelled over the 32 random
bytes. -/
def generateWebhookSecret (entropy : List Nat) : List Char := hexEncode entropy

/-- Webhook columns written onto the `email_agent` row at launch. -/
structure EmailAgentWebhookCols where
  webhookSecret : List Char
  webhookUrl : String
deriving DecidableEq

/-- Durable state touched by registration: the webhook columns of
`email_agent` rows (keyed by email-agent id) and the
`cursor_agent_mapping` rows (keyed by `cursor_agent_id`). -/
structure JobRegistryState where
  emailAgentWebhook : List (String × EmailAgentWebhookCols)
  mappings : List (String × CursorAgentMappingRow)
deriving DecidableEq

/-- Inputs of one registration: the email-agent config id, its email
address, the originating email id, the agent id returned by the Cursor
API, the callback URL, and the 32 random bytes drawn for the secret. -/
structure RegisterInput where
  configId : String
  emailAddress : String
  originalEmailId : String
  cursorAgentId : String
  webhookUrl : String
  entropy : List Nat
deriving DecidableEq

/-- The registration writes of `createCursorAgent`: update the
`email_agent` row with the fresh secret and URL, and insert the mapping
row — whose `webhook_secret` column is NOT among the inserted values and
therefore remains NULL.  Returns the new state and the generated
secret. -/
def registerCursorAgent (st : JobRegistryState) (inp : RegisterInput) :
    JobRegistryState × List Char :=
  let secret := generateWebhookSecret inp.entropy
  let row : CursorAgentMappingRow :=
    { originalEmailId := inp.originalEmailId
      emailAddress := inp.emailAddress
      webhookSecret := none
      emailAgentId := inp.configId }
  ({ emailAgentWebhook := (inp.configId, ⟨secret, inp.webhookUrl⟩) :: st.emailAgentWebhook
     mappings := (inp.cursorAgentId, row) :: st.mappings }, secret)

/-- The mapping select of src/unnamed/part_008, lines 184-193: first row
whose `cursor_agent_id` equals the given job id. -/
def lookupMappingRow (st : JobRegistryState) (jobId : String) :
    Option CursorAgentMappingRow :=
  (st.mappings.find? (fun p => p.1 == jobId)).map (fun p => p.2)

/-! ## Concrete instances used by counterexamples and witnesses -/

/-- A concrete secret: the bytes of `"k"`. -/
def exSecret : List Nat := [107]

/-- A concrete body: the bytes of `"b"`. -/
def exBody : List Nat := [98]

/-- A concrete attempt environment: 500 on the first attempt, 200 after. -/
def exOutcome : Nat → AttemptResult :=
  fun i => if i = 0 then AttemptResult.response 500 else AttemptResult.response 200

/-- A concrete attempt environment: every attempt throws (e.g. times out). -/
def exOutcomeExn : Nat → AttemptResult := fun _ => AttemptResult.exn

/-- A concrete well-formed payload with terminal status. -/
def exPayloadFinished : WebhookPayloadFields :=
  ⟨some "statusChange", some "agent-1", some "FINISHED", some "2025-09-01T00:00:00Z"⟩

/-- A concrete well-formed payload with the non-terminal status RUNNING. -/
def exPayloadRunning : WebhookPayloadFields :=
  ⟨some "statusChange", some "agent-1", some "RUNNING", some "2025-09-01T00:00:00Z"⟩

/-- A concrete well-formed terminal payload whose body id differs from the
URL path id. -/
def exPayloadOtherId : WebhookPayloadFields :=
  ⟨some "statusChange", some "agent-9", some "FINISHED", some "2025-09-01T00:00:00Z"⟩

/-- A parse environment returning `exPayloadFinished`. -/
def exParseFinished : List Nat → Option WebhookPayloadFields := fun _ => some exPayloadFinished

/-- A parse environment returning `exPayloadRunning`. -/
def exParseRunning : List Nat → Option WebhookPayloadFields := fun _ => some exPayloadRunning

/-- A parse environment returning `exPayloadOtherId`. -/
def exParseOtherId : List Nat → Option WebhookPayloadFields := fun _ => some exPayloadOtherId

/-- A mapping row that carries a signing secret. -/
def exMappingWithSecret : CursorAgentMappingRow :=
  ⟨"email-7", "agent@bg.inbound.new", some exSecret, "cfg-1"⟩

/-- A mapping row with a NULL `webhook_secret` column. -/
def exMappingNoSecret : CursorAgentMappingRow :=
  ⟨"orig-1", "agent@bg.inbound.new", none, "cfg-1"⟩

/-- A registry with one row registered under the agent id "agent-1". -/
def exLookupAgent1 : String → Option CursorAgentMappingRow :=
  fun s => if s = "agent-1" then some exMappingWithSecret else none

/-- A registry whose only row is keyed by the string "email-7", the URL
path id of the concrete requests below. -/
def exLookupByPathKey : String → Option CursorAgentMappingRow :=
  fun s => if s = "email-7" then some exMappingNoSecret else none

/-- A valid request without a signature header, at URL path id "email-7". -/
def exReqValidNoSig : WebhookRequest :=
  ⟨"email-7", some "Cursor-Agent-Webhook/1.0", some "statusChange", some "wh-1", none, exBody⟩

/-- A valid request with a signature header that fails verification. -/
def exReqBadSig : WebhookRequest :=
  ⟨"email-7", some "Cursor-Agent-Webhook/1.0", some "statusChange", some "wh-1",
   some ['x'], exBody⟩

/-- A request without a User-Agent header but with a valid signature for
`exSecret` over its own body. -/
def exReqNoUA : WebhookRequest :=
  ⟨"email-7", none, some "statusChange", some "wh-1",
   some (signWebhook exSecret exBody), exBody⟩

/-- A tracker in intermediate state RUNNING with a webhook URL. -/
def exTracker : AgentStatusTracker :=
  ⟨"agent-1", "RUNNING", some "https://x/cb", some exSecret, ⟨none, none, none, none⟩⟩

/-- A poll entry for the tracked agent, now FINISHED. -/
def exAgentFinished : CursorAgentInfo :=
  ⟨"agent-1", "agent one", "FINISHED", none, "2025-09-01T00:00:00Z", none⟩

/-- A concrete registration input with 32 bytes of entropy. -/
def exRegInput : RegisterInput :=
  ⟨"cfg-1", "agent@bg.inbound.new", "email-7", "agent-123",
   "https://bg.inbound.new/api/cursor-webhooks/email-7", List.range 32⟩

/-- The empty registry state. -/
def emptyRegistry : JobRegistryState := ⟨[], []⟩

/-! ### Lemmas: hexadecimal codec -/

theorem hexVal_hexDigit {n : Nat} (h : n < 16) : hexVal (hexDigit n) = some n := by
  interval_cases n <;> decide

theorem hexDecode_cons {c1 c2 : Char} {rest : List Char} {hv lv : Nat}
    (h1 : hexVal c1 = some hv) (h2 : hexVal c2 = some lv) :
    hexDecode (c1 :: c2 :: rest) = (16 * hv + lv) :: hexDecode rest := by
  simp [hexDecode, h1, h2]

/-- Node hex decoding stops at a non-hexadecimal leading character. -/
theorem hexDecode_head_invalid {c : Char} {cs : List Char} (hc : hexVal c = none) :
    hexDecode (c :: cs) = [] := by
  cases cs <;> simp [hexDecode, hc]

/-- Hex decoding inverts hex encoding on genuine byte lists. -/
theorem hexDecode_hexEncode : ∀ {bs : List Nat}, (∀ b ∈ bs, b < 256) →
    hexDecode (hexEncode bs) = bs
  | [], _ => rfl
  | b :: bs, h => by
    have hb : b < 256 := h b (List.mem_cons_self b bs)
    have h1 : b / 16 % 16 < 16 := Nat.mod_lt _ (by norm_num)
    have h2 : b % 16 < 16 := Nat.mod_lt _ (by norm_num)
    rw [hexEncode, hexDecode_cons (hexVal_hexDigit h1) (hexVal_hexDigit h2),
      hexDecode_hexEncode (fun x hx => h x (List.mem_cons_of_mem b hx))]
    have hd : b / 16 % 16 = b / 16 := Nat.mod_eq_of_lt (by omega)
    rw [hd]
    congr 1
    omega

/-- Hex decoding of an encoded byte list followed by a non-hexadecimal
character silently truncates: the garbage suffix is dropped. -/
theorem hexDecode_hexEncode_append : ∀ {bs : List Nat} {c : Char} {cs : List Char},
    hexVal c = none → (∀ b ∈ bs, b < 256) →
    hexDecode (hexEncode bs ++ c :: cs) = bs
  | [], c, cs, hc, _ => by
    rw [hexEncode, List.nil_append, hexDecode_head_invalid hc]
  | b :: bs, c, cs, hc, h => by
    have hb : b < 256 := h b (List.mem_cons_self b bs)
    have h1 : b / 16 % 16 < 16 := Nat.mod_lt _ (by norm_num)
    have h2 : b % 16 < 16 := Nat.mod_lt _ (by norm_num)
    rw [hexEncode, List.cons_append, List.cons_append,
      hexDecode_cons (hexVal_hexDigit h1) (hexVal_hexDigit h2),
      hexDecode_hexEncode_append hc (fun x hx => h x (List.mem_cons_of_mem b hx))]
    have hd : b / 16 % 16 = b / 16 := Nat.mod_eq_of_lt (by omega)
    rw [hd]
    congr 1
    omega

theorem hexEncode_length {bs : List Nat} : (hexEncode bs).length = 2 * bs.length := by
  induction bs with
  | nil => rfl
  | cons b bs ih => simp [hexEncode, ih]; omega

/-! ### Lemmas: SHA-256 and HMAC digests -/

theorem wordBytes_lt {w : Nat} : ∀ b ∈ wordBytes w, b < 256 := by
  intro b hb
  simp only [wordBytes, List.mem_cons, List.not_mem_nil, or_false] at hb
  rcases hb with rfl | rfl | rfl | rfl <;> exact Nat.mod_lt _ (by norm_num)

theorem sha256_lt {m : List Nat} : ∀ b ∈ sha256 m, b < 256 := by
  intro b hb
  simp only [sha256, List.mem_append] at hb
  rcases hb with ((((((hb | hb) | hb) | hb) | hb) | hb) | hb) | hb <;>
    exact wordBytes_lt b hb

theorem sha256_length {m : List Nat} : (sha256 m).length = 32 := by
  simp [sha256, wordBytes]

theorem hmacSHA256_lt {key msg : List Nat} : ∀ b ∈ hmacSHA256 key msg, b < 256 := by
  intro b hb
  rw [hmacSHA256] at hb
  exact sha256_lt b hb

theorem hmacSHA256_length {key msg : List Nat} : (hmacSHA256 key msg).length = 32 := by
  rw [hmacSHA256]
  exact sha256_length

/-! ### Lemmas: signature scheme tag -/

theorem take_scheme (t : List Char) : (sigSchemeChars ++ t).take 7 = sigSchemeChars := by
  rw [show (7 : Nat) = sigSchemeChars.length from rfl, List.take_left]

theorem drop_scheme (t : List Char) : (sigSchemeChars ++ t).drop 7 = t := by
  rw [show (7 : Nat) = sigSchemeChars.length from rfl, List.drop_left]

/-! ## Claims -/

/-- C1: for every secret `s` and payload body `b`, signing and verifying
round-trip: the Inbound Verifier accepts the signature
`"sha256=" + hex(HMAC-SHA256(s, b))` the Delivery Engine computes over
the exact serialized body it transmits:
`verifyWebhookSignature s b (signWebhook s b) = true`. -/
theorem sign_verify_roundtrip (secret body : List Nat) :
    verifyWebhookSignature secret body (signWebhook secret body) = true := by
  rw [verifyWebhookSignature, signWebhook, take_scheme, drop_scheme, if_pos rfl,
    hexDecode_hexEncode hmacSHA256_lt, timingSafeEqual, if_pos rfl]
  simp

/-- C5 counterexample: appending a non-hexadecimal character to a correct
signature yields a string whose suffix after `"sha256="` does not
hex-decode (it is not well-formed hexadecimal), yet `verifyWebhookSignature`
accepts it, because the Node hex decoder silently truncates at the first
invalid character instead of failing. -/
theorem verify_accepts_trailing_garbage :
    hexWellFormed ((signWebhook exSecret exBody ++ ['x']).drop 7) = false ∧
    verifyWebhookSignature exSecret exBody (signWebhook exSecret exBody ++ ['x']) = true := by
  have hx : hexVal 'x' = none := by decide
  constructor
  · rw [signWebhook, List.append_assoc, drop_scheme]
    simp [hexWellFormed, List.all_append, hx]
  · rw [verifyWebhookSignature, signWebhook, List.append_assoc, take_scheme, if_pos rfl,
      drop_scheme, hexDecode_hexEncode_append hx hmacSHA256_lt,
      hexDecode_hexEncode hmacSHA256_lt, timingSafeEqual, if_pos rfl]
    simp

/-- C5 (amended): `verifyWebhookSignature` is a total boolean function
(never throws), and it returns false whenever the signature does not start
with `"sha256="` and whenever the truncating hex decode of the remainder
yields a byte count different from the 32-byte digest length.  (The
original claim is refuted above: since the Node hex decoder cannot fail,
a signature whose decodable part equals the expected digest is accepted
even when non-hexadecimal garbage follows it.) -/
theorem verify_fails_closed_amended (secret body : List Nat) (sig : List Char)
    (h : sig.take 7 ≠ sigSchemeChars ∨ (hexDecode (sig.drop 7)).length ≠ 32) :
    verifyWebhookSignature secret body sig = false := by
  rw [verifyWebhookSignature]
  by_cases hc : sig.take 7 = sigSchemeChars
  · rcases h with h | h
    · exact absurd hc h
    · rw [if_pos hc, timingSafeEqual, hexDecode_hexEncode hmacSHA256_lt, if_neg]
      rw [hmacSHA256_length]
      exact h
  · rw [if_neg hc]

/-- Witness for the amended C5 statement at a concrete malformed
signature. -/
theorem verify_fails_closed_amended_witness :
    verifyWebhookSignature exSecret exBody ['x'] = false :=
  verify_fails_closed_amended exSecret exBody ['x'] (Or.inl (by decide))

/-! ### Lemmas: the delivery retry loop -/

/-- One-step unfolding of the retry loop body, used so rewriting unfolds
exactly one iteration at a time. -/
theorem sendWebhookGo_succ (outcome : Nat → AttemptResult) (maxRetries a fuel : Nat) :
    sendWebhookGo outcome maxRetries a (fuel + 1) =
      match outcome a with
      | AttemptResult.response s =>
        if 200 ≤ s ∧ s ≤ 299 then ⟨true, 1, []⟩
        else if 400 ≤ s ∧ s ≤ 499 then ⟨false, 1, []⟩
        else if a = maxRetries - 1 then ⟨false, 1, []⟩
        else
          ⟨(sendWebhookGo outcome maxRetries (a + 1) fuel).success,
           (sendWebhookGo outcome maxRetries (a + 1) fuel).attempts + 1,
           backoffDelay a :: (sendWebhookGo outcome maxRetries (a + 1) fuel).delays⟩
      | AttemptResult.exn =>
        if a = maxRetries - 1 then ⟨false, 1, []⟩
        else
          ⟨(sendWebhookGo outcome maxRetries (a + 1) fuel).success,
           (sendWebhookGo outcome maxRetries (a + 1) fuel).attempts + 1,
           backoffDelay a :: (sendWebhookGo outcome maxRetries (a + 1) fuel).delays⟩ := by
  rw [sendWebhookGo]

/-- Running the loop from attempt `a` with matching fuel: when attempts
`a, a+1, ...` up to but excluding `a+n` are retryable failures and attempt
`a+n` draws a response that is 2xx (result `true`) or 4xx (result
`false`), the loop stops there having made `n + 1` attempts, with the
backoff delays of the failed attempts slept in order. -/
theorem sendWebhookGo_stops (outcome : Nat → AttemptResult) :
    ∀ (n a fuel maxRetries s : Nat) (res : Bool),
      a + fuel = maxRetries → n < fuel →
      (∀ i, i < n → retryable (outcome (a + i)) = true) →
      outcome (a + n) = AttemptResult.response s →
      ((200 ≤ s ∧ s ≤ 299) ∧ res = true ∨ (400 ≤ s ∧ s ≤ 499) ∧ res = false) →
      sendWebhookGo outcome maxRetries a fuel =
        ⟨res, n + 1, (List.range' a n).map backoffDelay⟩ := by
  intro n
  induction n with
  | zero =>
    intro a fuel maxRetries s res hsum hlt hpre hout hcls
    match fuel, hlt with
    | fuel + 1, _ =>
      rw [Nat.add_zero] at hout
      rcases hcls with ⟨hs, rfl⟩ | ⟨hs, rfl⟩
      · rw [sendWebhookGo_succ, hout]
        simp [hs]
      · have hns : ¬(200 ≤ s ∧ s ≤ 299) := by omega
        rw [sendWebhookGo_succ, hout]
        simp [hns, hs]
  | succ n ih =>
    intro a fuel maxRetries s res hsum hlt hpre hout hcls
    match fuel, hlt with
    | fuel + 1, _ =>
      have hr0 : retryable (outcome a) = true := by
        have h0 := hpre 0 (Nat.succ_pos n)
        rwa [Nat.add_zero] at h0
      have hlast : ¬(a = maxRetries - 1) := by omega
      have hpre' : ∀ i, i < n → retryable (outcome (a + 1 + i)) = true := by
        intro i hi
        have hx : a + 1 + i = a + (i + 1) := by omega
        rw [hx]
        exact hpre (i + 1) (by omega)
      have hout' : outcome (a + 1 + n) = AttemptResult.response s := by
        have hx : a + 1 + n = a + (n + 1) := by omega
        rw [hx]
        exact hout
      have hrec := ih (a + 1) fuel maxRetries s res (by omega) (by omega) hpre' hout' hcls
      cases ho : outcome a with
      | response st =>
        rw [ho] at hr0
        simp only [retryable, decide_eq_true_eq] at hr0
        rw [sendWebhookGo_succ, ho]
        simp [hr0.1, hr0.2, hlast, hrec, List.range'_succ]
      | exn =>
        rw [sendWebhookGo_succ, ho]
        simp [hlast, hrec, List.range'_succ]

/-- Running the loop from attempt `a` with matching fuel: when every
remaining attempt is a retryable failure, the loop exhausts its attempts
and returns false, sleeping the backoff delay after each failed attempt
but the last. -/
theorem sendWebhookGo_allfail (outcome : Nat → AttemptResult) :
    ∀ (fuel a maxRetries : Nat), a + fuel = maxRetries →
      (∀ i, i < fuel → retryable (outcome (a + i)) = true) →
      sendWebhookGo outcome maxRetries a fuel =
        ⟨false, fuel, (List.range' a (fuel - 1)).map backoffDelay⟩ := by
  intro fuel
  induction fuel with
  | zero =>
    intro a mR _ _
    simp [sendWebhookGo]
  | succ f ih =>
    intro a mR hsum hpre
    have hr0 : retryable (outcome a) = true := by
      have h0 := hpre 0 (Nat.succ_pos f)
      rwa [Nat.add_zero] at h0
    by_cases hf : f = 0
    · subst hf
      have hlast : a = mR - 1 := by omega
      cases ho : outcome a with
      | response st =>
        rw [ho] at hr0
        simp only [retryable, decide_eq_true_eq] at hr0
        rw [sendWebhookGo_succ, ho]
        simp [hr0.1, hr0.2, hlast]
      | exn =>
        rw [sendWebhookGo_succ, ho]
        simp [hlast]
    · obtain ⟨f', rfl⟩ : ∃ f', f = f' + 1 := ⟨f - 1, by omega⟩
      have hlast : ¬(a = mR - 1) := by omega
      have hpre' : ∀ i, i < f' + 1 → retryable (outcome (a + 1 + i)) = true := by
        intro i hi
        have hx : a + 1 + i = a + (i + 1) := by omega
        rw [hx]
        exact hpre (i + 1) (by omega)
      have hrec := ih (a + 1) mR (by omega) hpre'
      cases ho : outcome a with
      | response st =>
        rw [ho] at hr0
        simp only [retryable, decide_eq_true_eq] at hr0
        rw [sendWebhookGo_succ, ho]
        simp [hr0.1, hr0.2, hlast, hrec, List.range'_succ]
      | exn =>
        rw [sendWebhookGo_succ, ho]
        simp [hlast, hrec, List.range'_succ]

/-- C4: classification of one `sendWebhook(url, payload, secret?,
maxAttempts)` call.  The call is a total boolean-valued function (it never
throws).  When the first `n` attempts are retryable failures and attempt
`n` (0-based) draws a response: a 2xx response makes the call return true
after exactly `n + 1` attempts (no further attempts), a 4xx response makes
it return false immediately after those `n + 1` attempts; and when every
attempt up to `maxAttempts` is a 5xx response, transport error or timeout,
the call returns false after exactly `maxAttempts` attempts. -/
theorem sendWebhook_classification (outcome : Nat → AttemptResult) (maxRetries n s : Nat) :
    ((sendWebhook outcome maxRetries).success = true ∨
      (sendWebhook outcome maxRetries).success = false)
  ∧ (n < maxRetries → (∀ i, i < n → retryable (outcome i) = true) →
      outcome n = AttemptResult.response s →
      ((200 ≤ s → s ≤ 299 → sendWebhook outcome maxRetries =
          ⟨true, n + 1, (List.range n).map backoffDelay⟩)
    ∧ (400 ≤ s → s ≤ 499 → sendWebhook outcome maxRetries =
          ⟨false, n + 1, (List.range n).map backoffDelay⟩)))
  ∧ ((∀ i, i < maxRetries → retryable (outcome i) = true) →
      sendWebhook outcome maxRetries =
        ⟨false, maxRetries, (List.range (maxRetries - 1)).map backoffDelay⟩) := by
  refine ⟨Bool.eq_false_or_eq_true _, fun hn hpre hout => ⟨fun h2l h2r => ?_, fun h4l h4r => ?_⟩, fun hall => ?_⟩
  · rw [sendWebhook, List.range_eq_range']
    exact sendWebhookGo_stops outcome n 0 maxRetries maxRetries s true (by omega)
      (by omega) (by simpa using hpre) (by simpa using hout) (Or.inl ⟨⟨h2l, h2r⟩, rfl⟩)
  · rw [sendWebhook, List.range_eq_range']
    exact sendWebhookGo_stops outcome n 0 maxRetries maxRetries s false
      (by omega) (by omega) (by simpa using hpre) (by simpa using hout)
      (Or.inr ⟨⟨h4l, h4r⟩, rfl⟩)
  · rw [sendWebhook, List.range_eq_range']
    exact sendWebhookGo_allfail outcome maxRetries 0 maxRetries (by omega)
      (by simpa using hall)

/-- Witness for C4 at a concrete environment: a 500 on the first attempt,
a 200 on the second; the engine succeeds on attempt 2 after one 1000 ms
backoff sleep. -/
theorem sendWebhook_classification_witness :
    sendWebhook exOutcome 3 = ⟨true, 2, [1000]⟩ := by
  have h := ((sendWebhook_classification exOutcome 3 1 200).2.1 (by decide)
    (by decide) (by decide)).1 (by decide) (by decide)
  rw [h]
  decide

/-- C8: the delay slept before the retry that follows the `n`-th failed
attempt (0-based) is `min(1000 * 2 ^ n, 10000)` milliseconds; on an
all-retryable run the slept delays are exactly that sequence, so with
`maxAttempts = 3` attempt 1 is immediate, attempt 2 follows a 1000 ms
sleep and attempt 3 a further 2000 ms sleep. -/
theorem backoff_delays_spec (outcome : Nat → AttemptResult) (maxRetries n : Nat) :
    (backoffDelay n = min (1000 * 2 ^ n) 10000)
  ∧ ((∀ i, i < maxRetries → retryable (outcome i) = true) →
      (sendWebhook outcome maxRetries).delays = (List.range (maxRetries - 1)).map backoffDelay)
  ∧ ((∀ i, i < 3 → retryable (outcome i) = true) →
      sendWebhook outcome 3 = ⟨false, 3, [1000, 2000]⟩) := by
  refine ⟨rfl, fun hall => ?_, fun hall => ?_⟩
  · rw [sendWebhook, List.range_eq_range',
      sendWebhookGo_allfail outcome maxRetries 0 maxRetries (by omega) (by simpa using hall)]
  · rw [sendWebhook,
      sendWebhookGo_allfail outcome 3 0 3 (by omega) (by simpa using hall)]
    decide

/-- Witness for C8 at a concrete environment where every attempt times
out: three attempts, delays 1000 ms then 2000 ms. -/
theorem backoff_delays_spec_witness :
    sendWebhook exOutcomeExn 3 = ⟨false, 3, [1000, 2000]⟩ :=
  (backoff_delays_spec exOutcomeExn 3 0).2.2 (by decide)

/-- C9: the completion notifier sends a webhook for a tracked job only on
a transition from an intermediate tracked status (`RUNNING` or
`CREATING`) to a terminal polled status (`FINISHED` or `ERROR`); when the
agent is absent from the poll result, or its current status is not
terminal, no notification is sent. -/
theorem notify_only_on_terminal_transition (ags : List CursorAgentInfo)
    (trackers : List AgentStatusTracker) (t : AgentStatusTracker) :
    (∀ send ∈ checkAndNotifyAgentCompletion ags trackers,
      ∃ t' ∈ trackers, ∃ cur, ags.find? (fun a => a.id == t'.agentId) = some cur
        ∧ (t'.lastStatus = "RUNNING" ∨ t'.lastStatus = "CREATING")
        ∧ (cur.status = "FINISHED" ∨ cur.status = "ERROR"))
  ∧ (ags.find? (fun a => a.id == t.agentId) = none → notifyDecision ags t = none)
  ∧ (∀ cur, ags.find? (fun a => a.id == t.agentId) = some cur →
      ¬(cur.status = "FINISHED" ∨ cur.status = "ERROR") →
      notifyDecision ags t = none) := by
  refine ⟨fun send hsend => ?_, fun h => ?_, fun cur hf hnt => ?_⟩
  · rw [checkAndNotifyAgentCompletion] at hsend
    obtain ⟨t', ht', hdec⟩ := List.mem_filterMap.mp hsend
    refine ⟨t', ht', ?_⟩
    rw [notifyDecision] at hdec
    cases hf : ags.find? (fun a => a.id == t'.agentId) with
    | none => rw [hf] at hdec; simp at hdec
    | some cur =>
      rw [hf] at hdec
      by_cases htrans : (t'.lastStatus = "RUNNING" ∨ t'.lastStatus = "CREATING")
          ∧ (cur.status = "FINISHED" ∨ cur.status = "ERROR")
      · exact ⟨cur, rfl, htrans.1, htrans.2⟩
      · simp [htrans] at hdec
  · simp [notifyDecision, h]
  · have hnc : ¬((t.lastStatus = "RUNNING" ∨ t.lastStatus = "CREATING")
        ∧ (cur.status = "FINISHED" ∨ cur.status = "ERROR")) := fun hc => hnt hc.2
    simp [notifyDecision, hf, hnc]

/-- Witness for C9: with an empty poll result the tracked agent is
absent, and no notification is produced. -/
theorem notify_only_on_terminal_transition_witness :
    notifyDecision [] exTracker = none :=
  (notify_only_on_terminal_transition [] [] exTracker).2.1 (by decide)

/-- Every outcome of the reply stage keeps the kinds reserved for the
earlier gates out of reach. -/
theorem handlerReplyStage_kind_ne (cfg rok : Bool) (acts : List HandlerAction) :
    (handlerReplyStage cfg rok acts).kind ≠ ResponseKind.ignoredNonFinal ∧
    (handlerReplyStage cfg rok acts).kind ≠ ResponseKind.agentNotFound ∧
    (handlerReplyStage cfg rok acts).kind ≠ ResponseKind.invalidSignature := by
  cases cfg <;> cases rok <;> simp [handlerReplyStage]

/-- C10: a request whose User-Agent header is missing or differs from the
exact string `"Cursor-Agent-Webhook/1.0"` is rejected with 401 at the very
first gate: no action is performed, so the body is not read, not parsed,
no signature is verified and no downstream reply is sent — whatever
signature the request carries and whatever is registered. -/
theorem user_agent_gate_first (parse : List Nat → Option WebhookPayloadFields)
    (lookup : String → Option CursorAgentMappingRow) (cfg rok : Bool)
    (req : WebhookRequest)
    (h : req.userAgent ≠ some "Cursor-Agent-Webhook/1.0") :
    handleCursorWebhook parse lookup cfg rok req =
      ⟨401, ResponseKind.invalidUserAgent, []⟩ := by
  rw [handleCursorWebhook, if_pos (Or.inr h)]

/-- Witness for C10 at a concrete request that carries a valid signature
for a registered job but no User-Agent header. -/
theorem user_agent_gate_first_witness :
    handleCursorWebhook exParseFinished exLookupAgent1 true true exReqNoUA =
      ⟨401, ResponseKind.invalidUserAgent, []⟩ :=
  user_agent_gate_first exParseFinished exLookupAgent1 true true exReqNoUA (by decide)

/-- Once the User-Agent, event-type, parse and payload gates have passed,
the handler is exactly the mapping stage applied to the lookup of the
payload body id. -/
theorem handler_after_gates (parse : List Nat → Option WebhookPayloadFields)
    (lookup : String → Option CursorAgentMappingRow) (cfg rok : Bool)
    (req : WebhookRequest) (payload : WebhookPayloadFields) (jid ts : String)
    (hua : req.userAgent = some "Cursor-Agent-Webhook/1.0")
    (hev : req.eventType = some "statusChange")
    (hparse : parse req.rawBody = some payload)
    (hevp : payload.event = some "statusChange")
    (hid : payload.id = some jid) (hjid : jid ≠ "")
    (hts : payload.timestamp = some ts) (hts2 : ts ≠ "")
    (hst : payload.status = some "FINISHED" ∨ payload.status = some "ERROR") :
    handleCursorWebhook parse lookup cfg rok req =
      handlerMappingStage cfg rok req (lookup jid) := by
  have hc1 : ¬(truthyStr req.userAgent = false
      ∨ req.userAgent ≠ some "Cursor-Agent-Webhook/1.0") := by
    rw [hua]; decide
  have hc2 : ¬(truthyStr req.eventType = false ∨ req.eventType ≠ some "statusChange") := by
    rw [hev]; decide
  have hc3 : ¬(truthyStr payload.event = false ∨ truthyStr payload.id = false
      ∨ truthyStr payload.status = false ∨ truthyStr payload.timestamp = false) := by
    rcases hst with hst | hst <;>
      · rw [hevp, hid, hst, hts]
        simp [truthyStr, hjid, hts2]
  have hc4 : ¬(payload.event ≠ some "statusChange") := by rw [hevp]; simp
  have hc5 : ¬¬(payload.status = some "FINISHED" ∨ payload.status = some "ERROR") :=
    not_not_intro hst
  rw [handleCursorWebhook, if_neg hc1, if_neg hc2]
  simp only [hparse]
  rw [if_neg hc3, if_neg hc4, if_neg hc5, if_neg hc5]
  simp only [hid, Option.getD_some]
  cases hl : lookup jid <;> rfl

/-- The mapping stage reports `agentNotFound` exactly when the lookup
came back empty. -/
theorem handlerMappingStage_notFound_iff (cfg rok : Bool) (req : WebhookRequest) :
    ∀ o : Option CursorAgentMappingRow,
      (handlerMappingStage cfg rok req o).kind = ResponseKind.agentNotFound ↔ o = none
  | none => by simp [handlerMappingStage]
  | some mapping => by
    simp only [handlerMappingStage]
    constructor
    · intro hk
      exfalso
      revert hk
      split
      · split
        · split
          · simp
          · exact (handlerReplyStage_kind_ne cfg rok _).2.1
        · exact (handlerReplyStage_kind_ne cfg rok _).2.1
      · exact (handlerReplyStage_kind_ne cfg rok _).2.1
    · intro h
      simp at h

/-- C6 counterexample: a mapping row is registered under the key
"email-7", which is exactly the URL path id of the request, yet the
handler answers 404, because the lookup key it uses is the body field
`payload.id` ("agent-9"), not the path segment. -/
theorem lookup_ignores_path_segment :
    (exLookupByPathKey exReqValidNoSig.pathEmailId).isSome = true ∧
    handleCursorWebhook exParseOtherId exLookupByPathKey true true exReqValidNoSig =
      ⟨404, ResponseKind.agentNotFound,
        [HandlerAction.readBody, HandlerAction.parseBody, HandlerAction.lookupMapping]⟩ := by
  decide

/-- C6 (amended): the handler resolves the job record by the agent id
taken from the request body (`payload.id`), not by the URL path segment:
the result never depends on the path segment, and — once the header and
payload gates have passed — the handler answers 404 exactly when the body
id has no registered mapping.  (The original claim, resolution by the URL
path segment, is refuted by the counterexample above.) -/
theorem lookup_uses_body_id (parse : List Nat → Option WebhookPayloadFields)
    (lookup : String → Option CursorAgentMappingRow) (cfg rok : Bool)
    (req : WebhookRequest) (p1 p2 : String) (payload : WebhookPayloadFields)
    (jid ts : String)
    (hua : req.userAgent = some "Cursor-Agent-Webhook/1.0")
    (hev : req.eventType = some "statusChange")
    (hparse : parse req.rawBody = some payload)
    (hevp : payload.event = some "statusChange")
    (hid : payload.id = some jid) (hjid : jid ≠ "")
    (hts : payload.timestamp = some ts) (hts2 : ts ≠ "")
    (hst : payload.status = some "FINISHED" ∨ payload.status = some "ERROR") :
    (handleCursorWebhook parse lookup cfg rok { req with pathEmailId := p1 } =
      handleCursorWebhook parse lookup cfg rok { req with pathEmailId := p2 })
  ∧ ((handleCursorWebhook parse lookup cfg rok req).kind = ResponseKind.agentNotFound
      ↔ lookup jid = none) := by
  constructor
  · cases req
    rfl
  · rw [handler_after_gates parse lookup cfg rok req payload jid ts hua hev hparse
      hevp hid hjid hts hts2 hst]
    exact handlerMappingStage_notFound_iff cfg rok req (lookup jid)

/-- Witness for the amended C6 statement: the handler result is unchanged
when only the URL path segment changes. -/
theorem lookup_uses_body_id_witness :
    handleCursorWebhook exParseFinished exLookupAgent1 true true
        { exReqValidNoSig with pathEmailId := "email-A" } =
      handleCursorWebhook exParseFinished exLookupAgent1 true true
        { exReqValidNoSig with pathEmailId := "email-B" } :=
  (lookup_uses_body_id exParseFinished exLookupAgent1 true true exReqValidNoSig
    "email-A" "email-B" exPayloadFinished "agent-1" "2025-09-01T00:00:00Z"
    (by decide) (by decide) (by decide) (by decide) (by decide) (by decide)
    (by decide) (by decide) (Or.inl (by decide))).1

/-- C3 counterexample: the resolved mapping carries a signing secret and
the request has NO signature header, yet the handler accepts the event
(200) and invokes the downstream reply send — the missing header is not
rejected with 401. -/
theorem missing_signature_accepted :
    exMappingWithSecret.webhookSecret ≠ none ∧
    exReqValidNoSig.signature = none ∧
    handleCursorWebhook exParseFinished exLookupAgent1 true true exReqValidNoSig =
      ⟨200, ResponseKind.success,
        [HandlerAction.readBody, HandlerAction.parseBody,
         HandlerAction.lookupMapping, HandlerAction.sendReply]⟩ := by
  decide

/-- C3 (amended): the signature is verified only when both a (truthy)
signature header and a (truthy) stored secret are present; in that case a
failed verification over the raw body bytes is rejected with 401 with no
downstream reply.  A missing signature header is accepted for backward
compatibility: the handler proceeds to the reply stage without any
verification.  (The original claim — 401 on a missing header — is refuted
by the counterexample above.) -/
theorem signature_checked_only_when_present (parse : List Nat → Option WebhookPayloadFields)
    (lookup : String → Option CursorAgentMappingRow) (cfg rok : Bool)
    (req : WebhookRequest) (payload : WebhookPayloadFields) (jid ts : String)
    (mapping : CursorAgentMappingRow)
    (hua : req.userAgent = some "Cursor-Agent-Webhook/1.0")
    (hev : req.eventType = some "statusChange")
    (hparse : parse req.rawBody = some payload)
    (hevp : payload.event = some "statusChange")
    (hid : payload.id = some jid) (hjid : jid ≠ "")
    (hts : payload.timestamp = some ts) (hts2 : ts ≠ "")
    (hst : payload.status = some "FINISHED" ∨ payload.status = some "ERROR")
    (hl : lookup jid = some mapping) :
    (truthyChars req.signature = true → truthyBytes mapping.webhookSecret = true →
      verifyWebhookSignature (mapping.webhookSecret.getD []) req.rawBody
        (req.signature.getD []) = false →
      handleCursorWebhook parse lookup cfg rok req =
        ⟨401, ResponseKind.invalidSignature,
          [HandlerAction.readBody, HandlerAction.parseBody,
           HandlerAction.lookupMapping, HandlerAction.verifySig]⟩)
  ∧ (req.signature = none →
      handleCursorWebhook parse lookup cfg rok req =
        handlerReplyStage cfg rok
          [HandlerAction.readBody, HandlerAction.parseBody, HandlerAction.lookupMapping]) := by
  rw [handler_after_gates parse lookup cfg rok req payload jid ts hua hev hparse
    hevp hid hjid hts hts2 hst, hl]
  constructor
  · intro hsig hsec hver
    simp [handlerMappingStage, hsig, hsec, hver]
  · intro hnone
    simp [handlerMappingStage, hnone, truthyChars]

/-- Witness for the amended C3 statement: a request whose signature header
fails verification is rejected with 401 and no reply is sent. -/
theorem signature_checked_only_when_present_witness :
    handleCursorWebhook exParseFinished exLookupAgent1 true true exReqBadSig =
      ⟨401, ResponseKind.invalidSignature,
        [HandlerAction.readBody, HandlerAction.parseBody,
         HandlerAction.lookupMapping, HandlerAction.verifySig]⟩ :=
  (signature_checked_only_when_present exParseFinished exLookupAgent1 true true
    exReqBadSig exPayloadFinished "agent-1" "2025-09-01T00:00:00Z" exMappingWithSecret
    (by decide) (by decide) (by decide) (by decide) (by decide) (by decide)
    (by decide) (by decide) (Or.inl (by decide)) (by decide)).1
    (by decide) (by decide) (by decide)

/-- C7 (code bug): a well-formed statusChange event with the recognized
non-terminal status RUNNING for a known job is rejected with 400
("Invalid status") instead of being acknowledged with 200 and ignored:
the status validation at src/unnamed/part_008, lines 163-166, returns 400
for every status other than FINISHED or ERROR, so the `ignored` branch at
lines 169-172 — whose guard repeats the identical test — is unreachable
for every input. -/
theorem running_status_rejected_400 :
    (handleCursorWebhook exParseRunning exLookupAgent1 true true exReqValidNoSig =
      ⟨400, ResponseKind.invalidStatus, [HandlerAction.readBody, HandlerAction.parseBody]⟩)
  ∧ ∀ (parse : List Nat → Option WebhookPayloadFields)
      (lookup : String → Option CursorAgentMappingRow) (cfg rok : Bool)
      (req : WebhookRequest),
      (handleCursorWebhook parse lookup cfg rok req).kind ≠ ResponseKind.ignoredNonFinal := by
  constructor
  · decide
  · intro parse lookup cfg rok req
    simp only [handleCursorWebhook]
    repeat' split
    all_goals
      first
        | (simp; done)
        | exact (handlerReplyStage_kind_ne cfg rok _).1

/-- C2 (code bug): registering a job generates a 64-character
hexadecimal secret, but the mapping row that `lookupMappingRow` (the
select used by the webhook handler) returns for the new agent id carries a NULL
`webhook_secret` — the insert never wrote the secret, which went to the
`email_agent` row instead — while an unknown job id yields not-found. -/
theorem register_lookup_secret_mismatch :
    ((registerCursorAgent emptyRegistry exRegInput).2.length = 64
      ∧ ((registerCursorAgent emptyRegistry exRegInput).2.all
          (fun c => (hexVal c).isSome)) = true)
  ∧ lookupMappingRow (registerCursorAgent emptyRegistry exRegInput).1 "agent-123" =
      some ⟨"email-7", "agent@bg.inbound.new", none, "cfg-1"⟩
  ∧ lookupMappingRow (registerCursorAgent emptyRegistry exRegInput).1 "job-unknown" =
      none := by
  decide

end BgInbound
